import Mathlib

/-!
Shallow embedding of `qBitrr/main.py`: the top-level orchestrator of qBitrr
(version gate, liveness probe with expiring cache, child-process supervision,
shutdown hook). Network calls, raised exceptions and the injected failure
points are modelled as explicit parameters; logging, sleeping and process
lifecycle operations are recorded in an event trace.
-/

namespace Qbitrr

/-- A parsed version, as its list of numeric release components
(the release-segment fragment of packaging.version that this program uses). -/
abbrev PVersion := List Nat

/-- Release-tuple comparison with implicit zero padding, as
packaging.version compares release tuples. -/
def relLE : PVersion → PVersion → Bool
  | [], _ => true
  | a :: restA, [] => a == 0 && relLE restA []
  | a :: restA, b :: restB => decide (a < b) || (a == b && relLE restA restB)

/-- Python exception taxonomy as this module distinguishes it:
KeyboardInterrupt, SystemExit (raised by sys.exit), the network-layer
requests.RequestException, and every other Exception. -/
inductive Exn
  | keyboardInterrupt
  | systemExit (code : Nat)
  | requestException
  | otherException
deriving DecidableEq, Repr

/-- Whether a raised value is caught by a Python `except Exception` clause:
KeyboardInterrupt and SystemExit derive from BaseException only. -/
def Exn.isException : Exn → Bool
  | .requestException => true
  | .otherException => true
  | _ => false

inductive LogLevel
  | trace
  | debug
  | notice
  | hnotice
  | warning
  | error
  | critical
deriving DecidableEq, Repr

/-- Observable effects of the orchestrator: a leveled log line (with the
version values interpolated into it), a sleep, the lightweight network
version call, and the lifecycle operations on a worker handle. -/
inductive Event
  | log (level : LogLevel) (msg : String) (vals : List PVersion)
  | sleep (seconds : Nat)
  | netVersionCall
  | start (handle : Nat)
  | join (handle : Nat)
  | kill (handle : Nat)
  | terminate (handle : Nat)
deriving DecidableEq, Repr

/-- Modelled from the spec: `ExpiringSet` is defined in `qBitrr/utils.py`,
which is not among the given sources. Per the spec it is a mapping from an
entry key to an expiry timestamp equal to insertion time plus a fixed TTL. -/
structure ExpiringSet where
  max_age_seconds : Nat
  entries : List (Nat × Nat)
deriving DecidableEq, Repr

/-- Modelled from the spec: a key is considered present iff now is earlier
than its expiry timestamp. -/
def ExpiringSet.contains (s : ExpiringSet) (now key : Nat) : Bool :=
  s.entries.any fun kv => kv.1 == key && decide (now < kv.2)

/-- Modelled from the spec: adding a key stores expiry = insertion time plus
the TTL, refreshing any previous entry for that key. -/
def ExpiringSet.add (s : ExpiringSet) (now key : Nat) : ExpiringSet :=
  { max_age_seconds := s.max_age_seconds
    entries := (key, now + s.max_age_seconds) :: s.entries.filter fun kv => !(kv.1 == key) }

/-- The orchestrator state: the fields of the Python `qBitManager` object
that the supervised logic reads and writes. -/
structure qBitManager where
  current_qbit_version : PVersion
  validated_version : Bool
  expiring_bool : ExpiringSet
  should_delay_torrent_scan : Bool
  child_processes : List Nat
deriving DecidableEq, Repr

def qBitManager.min_supported_version : PVersion := [4, 3, 4]

def qBitManager.max_supported_version : PVersion := [4, 4]

/-- The version gate (`qBitManager._version_validator`): inclusive range
check; in range and validated logs success; in range but unvalidated logs a
degraded-confidence message and sleeps 10 seconds; out of range logs a
critical message carrying the observed version and both bounds and calls
sys.exit(1), modelled as raising SystemExit 1. -/
def qBitManager.version_validator (cur : PVersion) (validated : Bool) :
    List Event × Except Exn Unit :=
  if relLE qBitManager.min_supported_version cur && relLE cur qBitManager.max_supported_version then
    if validated then
      ([Event.log .hnotice "Current qBitTorrent version is supported" [cur]], .ok ())
    else
      ([Event.log .hnotice "Could not validate current qBitTorrent version, assuming" [cur],
        Event.sleep 10], .ok ())
  else
    ([Event.log .critical "You are currently running qBitTorrent version, supported version range is"
        [cur, qBitManager.min_supported_version, qBitManager.max_supported_version]],
     .error (.systemExit 1))

/-- The constructor (`qBitManager.__init__`), starting at the version fetch:
`fetch` is the outcome of parsing `client.app_version()` (the try block
catches BaseException, so any raise falls back to the minimum supported
version with the validated flag cleared and an error logged), then the
version gate runs (it may exit), then the expiring cache, flags and empty
child-process list are set up, then the FFprobe update runs (its failures
are caught only when they are Exception, and merely logged). -/
def qBitManager.init (fetch : Except Exn PVersion) (ffprobe : Except Exn Unit) :
    List Event × Except Exn qBitManager :=
  let debugEv := Event.log .debug "QBitTorrent Config" []
  let fetched :=
    match fetch with
    | .ok v => (v, true, ([] : List Event))
    | .error _ =>
        (qBitManager.min_supported_version, false,
         [Event.log .error "Could not establish qBitTorrent version" []])
  let cur := fetched.1
  let validated := fetched.2.1
  let fev := fetched.2.2
  let gated := qBitManager.version_validator cur validated
  match gated.2 with
  | .error e => (debugEv :: (fev ++ gated.1), .error e)
  | .ok _ =>
      let m : qBitManager :=
        { current_qbit_version := cur
          validated_version := validated
          expiring_bool := { max_age_seconds := 10, entries := [] }
          should_delay_torrent_scan := false
          child_processes := [] }
      match ffprobe with
      | .ok _ => (debugEv :: (fev ++ gated.1), .ok m)
      | .error e =>
          if e.isException then
            (debugEv :: (fev ++ gated.1 ++ [Event.log .error "FFprobe manager error" []]), .ok m)
          else
            (debugEv :: (fev ++ gated.1), .error e)

/-- The liveness probe (`qBitManager.is_alive`): if the sentinel key 1 is
present in the expiring cache, return true with no network call; otherwise
perform the version call (`net` is its outcome) — on success log, refresh
the sentinel and return true; on requests.RequestException log a warning,
set the delay-scan flag and return false; any other raise propagates with
the state unchanged. -/
def qBitManager.is_alive (m : qBitManager) (now : Nat) (net : Except Exn Unit) :
    List Event × Except Exn Bool × qBitManager :=
  if m.expiring_bool.contains now 1 then
    ([], .ok true, m)
  else
    match net with
    | .ok _ =>
        ([Event.netVersionCall, Event.log .trace "Successfully connected" []], .ok true,
         { m with expiring_bool := m.expiring_bool.add now 1 })
    | .error .requestException =>
        ([Event.netVersionCall, Event.log .warning "Could not connect" []], .ok false,
         { m with should_delay_torrent_scan := true })
    | .error e => ([Event.netVersionCall], .error e, m)

/-- Modelled from the spec: `spawn_child_processes` is defined per managed
category in `qBitrr/arss.py`, which is not among the given sources. Per the
spec a category produces zero or more worker handles, which are both
returned and registered on the manager so that `run` later starts exactly
the produced handles. Returns the pair (number spawned, handles), as the
call site in `get_child_processes` unpacks it. -/
def spawn_child_processes (category : List Nat) : Nat × List Nat :=
  (category.length, category)

/-- `qBitManager.get_child_processes`: logs the managed-category count and
aggregates, in order, the handles spawned by every category, registering
them on the manager; no handle is started here. -/
def qBitManager.get_child_processes (m : qBitManager) (categories : List (List Nat)) :
    List Event × qBitManager × List Nat :=
  let procs := categories.flatMap fun c => (spawn_child_processes c).2
  ([Event.log .hnotice "Managing categories" []],
   { m with child_processes := m.child_processes ++ procs }, procs)

/-- `qBitManager.run`: logs, starts every registered handle in list order,
then joins every handle in the same order. `inj` optionally makes the k-th
lifecycle operation raise instead of executing: KeyboardInterrupt is caught
and turned into sys.exit(0); any other BaseException is caught and turned
into sys.exit(1). -/
def qBitManager.run (m : qBitManager) (inj : Option (Nat × Exn)) :
    List Event × Except Exn Unit :=
  let ops := m.child_processes.map Event.start ++ m.child_processes.map Event.join
  let notice := Event.log .notice "Starting child processes" []
  match inj with
  | none => (notice :: ops, .ok ())
  | some (k, e) =>
      if k < ops.length then
        if e = Exn.keyboardInterrupt then
          (notice :: (ops.take k ++ [Event.log .hnotice "Detected Ctrl+C - Terminating process" []]),
           .error (.systemExit 0))
        else
          (notice :: (ops.take k ++ [Event.log .hnotice "Terminating process" []]),
           .error (.systemExit 1))
      else (notice :: ops, .ok ())

/-- Worker-handle lifecycle state. -/
inductive HState
  | fresh
  | running
  | stopped
deriving DecidableEq, Repr

/-- Modelled from the spec: the WorkerHandle `kill` capability
(multiprocessing, not among the given sources) — forced kill, idempotent
when the handle is already stopped, never raising. -/
def HState.kill : HState → Except Exn HState
  | _ => .ok .stopped

/-- Modelled from the spec: the WorkerHandle `terminate` capability —
graceful termination request, idempotent on a stopped handle, never
raising. -/
def HState.terminate : HState → Except Exn HState
  | _ => .ok .stopped

/-- The atexit shutdown hook (`cleanup`): iterates the process registry
and issues kill then terminate on every handle, threading any raise. -/
def cleanup : List (Nat × HState) → List Event × Except Exn (List (Nat × HState))
  | [] => ([], .ok [])
  | h :: rest =>
      match h.2.kill with
      | .error e => ([Event.kill h.1], .error e)
      | .ok s1 =>
          match s1.terminate with
          | .error e => ([Event.kill h.1, Event.terminate h.1], .error e)
          | .ok s2 =>
              let tail := cleanup rest
              (Event.kill h.1 :: Event.terminate h.1 :: tail.1,
               tail.2.map fun l => (h.1, s2) :: l)

/-- The module-level `run()`: builds the manager (outside the try, so a
SystemExit from the version gate propagates with an empty registry), sets
the global CHILD_PROCESSES registry from `get_child_processes`, then calls
`manager.run()`; KeyboardInterrupt exits 0, a caught Exception kills the
manager's children and returns normally, and anything else (in particular
the SystemExit values produced inside `manager.run()`) propagates. Returns
the trace, the outcome, and the final CHILD_PROCESSES registry. -/
def run (fetch : Except Exn PVersion) (ffprobe : Except Exn Unit)
    (categories : List (List Nat)) (inj : Option (Nat × Exn)) :
    List Event × Except Exn Unit × List Nat :=
  let startEv := Event.log .notice "Starting qBitrr" []
  match qBitManager.init fetch ffprobe with
  | (tr0, .error e) => (startEv :: tr0, .error e, [])
  | (tr0, .ok m) =>
      let gcp := m.get_child_processes categories
      let ran := qBitManager.run gcp.2.1 inj
      match ran.2 with
      | .ok _ => (startEv :: (tr0 ++ gcp.1 ++ ran.1), .ok (), gcp.2.2)
      | .error .keyboardInterrupt =>
          (startEv :: (tr0 ++ gcp.1 ++ ran.1 ++
             [Event.log .hnotice "Detected Ctrl+C - Terminating process" []]),
           .error (.systemExit 0), gcp.2.2)
      | .error e =>
          if e.isException then
            (startEv :: (tr0 ++ gcp.1 ++ ran.1 ++
               [Event.log .notice "Attempting to terminate child processes" []] ++
               gcp.2.1.child_processes.map Event.kill),
             .ok (), gcp.2.2)
          else (startEv :: (tr0 ++ gcp.1 ++ ran.1), .error e, gcp.2.2)

/-- The interpreter exit status for an outcome of the module entry point:
normal return exits 0, SystemExit carries its code, an uncaught exception
exits 1. -/
def pyExitCode : Except Exn Unit → Nat
  | .ok _ => 0
  | .error (.systemExit c) => c
  | .error _ => 1

/-- The whole process: run the module entry point, then (on every exit
path, because the hook was registered unconditionally by atexit) run the
`cleanup` shutdown hook over the CHILD_PROCESSES registry, and exit with
the status determined by the outcome. -/
def mainProgram (fetch : Except Exn PVersion) (ffprobe : Except Exn Unit)
    (categories : List (List Nat)) (inj : Option (Nat × Exn)) :
    List Event × Nat :=
  let res := run fetch ffprobe categories inj
  let fin := cleanup (res.2.2.map fun h => (h, HState.running))
  (res.1 ++ fin.1, pyExitCode res.2.1)

/-- C2: for every observed version inside the inclusive supported range the
version validator returns (the process continues); for every version
outside the range it produces a critical log carrying the observed version
and both bounds and terminates with exit status 1. -/
theorem c2_version_gate (cur : PVersion) (validated : Bool) :
    ((relLE qBitManager.min_supported_version cur &&
        relLE cur qBitManager.max_supported_version) = true →
      (qBitManager.version_validator cur validated).2 = .ok ()) ∧
    ((relLE qBitManager.min_supported_version cur &&
        relLE cur qBitManager.max_supported_version) = false →
      qBitManager.version_validator cur validated =
        ([Event.log .critical
            "You are currently running qBitTorrent version, supported version range is"
            [cur, qBitManager.min_supported_version, qBitManager.max_supported_version]],
         .error (.systemExit 1))) := by
  constructor <;> intro h <;> simp [qBitManager.version_validator, h] <;> cases validated <;> simp

/-- C2 witness: version 4.3.5 is in range and the validator continues;
version 4.5.0 is out of range and the validator logs critically and exits
with status 1. -/
theorem c2_version_gate_witness :
    ((relLE qBitManager.min_supported_version [4, 3, 5] &&
        relLE [4, 3, 5] qBitManager.max_supported_version) = true ∧
      (qBitManager.version_validator [4, 3, 5] true).2 = .ok ()) ∧
    ((relLE qBitManager.min_supported_version [4, 5, 0] &&
        relLE [4, 5, 0] qBitManager.max_supported_version) = false ∧
      qBitManager.version_validator [4, 5, 0] true =
        ([Event.log .critical
            "You are currently running qBitTorrent version, supported version range is"
            [[4, 5, 0], qBitManager.min_supported_version, qBitManager.max_supported_version]],
         .error (.systemExit 1))) :=
  ⟨⟨by decide, (c2_version_gate [4, 3, 5] true).1 (by decide)⟩,
   ⟨by decide, (c2_version_gate [4, 5, 0] true).2 (by decide)⟩⟩

/-- C6: for every observed version inside the range whose validated flag is
false, the validator logs the degraded-confidence message, sleeps for the
fixed 10-unit grace delay, and returns without exiting. -/
theorem c6_unvalidated_grace_delay (cur : PVersion)
    (h : (relLE qBitManager.min_supported_version cur &&
        relLE cur qBitManager.max_supported_version) = true) :
    qBitManager.version_validator cur false =
      ([Event.log .hnotice "Could not validate current qBitTorrent version, assuming" [cur],
        Event.sleep 10], .ok ()) := by
  simp [qBitManager.version_validator, h]

/-- C6 witness: the fallback version 4.3.4 (equal to the minimum) is in
range; unvalidated, the gate logs, sleeps 10, and continues. -/
theorem c6_unvalidated_grace_delay_witness :
    (relLE qBitManager.min_supported_version [4, 3, 4] &&
        relLE [4, 3, 4] qBitManager.max_supported_version) = true ∧
    qBitManager.version_validator [4, 3, 4] false =
      ([Event.log .hnotice "Could not validate current qBitTorrent version, assuming" [[4, 3, 4]],
        Event.sleep 10], .ok ()) :=
  ⟨by decide, c6_unvalidated_grace_delay [4, 3, 4] (by decide)⟩

/-- C3: when the sentinel is absent and the underlying version call raises
a network-layer failure, is_alive returns false and sets the delay-scan
flag; when it raises any non-network exception, is_alive does not catch it
and the exception propagates with the manager state unchanged. -/
theorem c3_network_failure_and_propagation (m : qBitManager) (now : Nat) (e : Exn)
    (h : m.expiring_bool.contains now 1 = false) :
    m.is_alive now (.error .requestException) =
      ([Event.netVersionCall, Event.log .warning "Could not connect" []], .ok false,
       { m with should_delay_torrent_scan := true }) ∧
    (e ≠ .requestException →
      m.is_alive now (.error e) = ([Event.netVersionCall], .error e, m)) := by
  refine ⟨by simp [qBitManager.is_alive, h], fun he => ?_⟩
  cases e <;> simp [qBitManager.is_alive, h] <;> simp at he

def probe0 : qBitManager :=
  { current_qbit_version := [4, 3, 5]
    validated_version := true
    expiring_bool := { max_age_seconds := 10, entries := [] }
    should_delay_torrent_scan := false
    child_processes := [] }

/-- C3 witness: with an empty cache at time 0, a RequestException yields
false plus the delay flag, and an unrelated exception propagates. -/
theorem c3_network_failure_and_propagation_witness :
    probe0.expiring_bool.contains 0 1 = false ∧
    (probe0.is_alive 0 (.error .requestException) =
      ([Event.netVersionCall, Event.log .warning "Could not connect" []], .ok false,
       { probe0 with should_delay_torrent_scan := true }) ∧
     (Exn.otherException ≠ Exn.requestException →
       probe0.is_alive 0 (.error .otherException) =
         ([Event.netVersionCall], .error .otherException, probe0))) :=
  ⟨by decide, c3_network_failure_and_propagation probe0 0 .otherException (by decide)⟩

/-- C4: when the sentinel key is present (unexpired) in the ExpiringSet,
is_alive returns true immediately with no network call and no state change;
when the sentinel is absent and the network call succeeds, is_alive refreshes
the sentinel in the cache and returns true. -/
theorem c4_sentinel_short_circuit (m : qBitManager) (now : Nat) (net : Except Exn Unit) :
    (m.expiring_bool.contains now 1 = true →
      m.is_alive now net = ([], .ok true, m)) ∧
    (m.expiring_bool.contains now 1 = false →
      m.is_alive now (.ok ()) =
        ([Event.netVersionCall, Event.log .trace "Successfully connected" []], .ok true,
         { m with expiring_bool := m.expiring_bool.add now 1 })) := by
  constructor <;> intro h <;> simp [qBitManager.is_alive, h]

def probe1 : qBitManager :=
  { probe0 with expiring_bool := { max_age_seconds := 10, entries := [(1, 7)] } }

/-- C4 witness: at time 3 the sentinel entry expiring at 7 is present, so
is_alive answers true with an empty trace; on probe0 (empty cache) a
successful call refreshes the sentinel. -/
theorem c4_sentinel_short_circuit_witness :
    (probe1.expiring_bool.contains 3 1 = true ∧
      probe1.is_alive 3 (.ok ()) = ([], .ok true, probe1)) ∧
    (probe0.expiring_bool.contains 0 1 = false ∧
      probe0.is_alive 0 (.ok ()) =
        ([Event.netVersionCall, Event.log .trace "Successfully connected" []], .ok true,
         { probe0 with expiring_bool := probe0.expiring_bool.add 0 1 })) :=
  ⟨⟨by decide, (c4_sentinel_short_circuit probe1 3 (.ok ())).1 (by decide)⟩,
   ⟨by decide, (c4_sentinel_short_circuit probe0 0 (.ok ())).2 (by decide)⟩⟩

/-- C5: for every failure of the version fetch step, the constructor stores
the minimum supported version as the observed version, clears the validated
flag, logs an error, and proceeds into the version gate (whose events
follow in the trace) instead of aborting at the fetch step. -/
theorem c5_fetch_failure_fallback (e : Exn) :
    qBitManager.init (.error e) (.ok ()) =
      ([Event.log .debug "QBitTorrent Config" [],
        Event.log .error "Could not establish qBitTorrent version" [],
        Event.log .hnotice "Could not validate current qBitTorrent version, assuming"
          [qBitManager.min_supported_version],
        Event.sleep 10],
       .ok { current_qbit_version := qBitManager.min_supported_version
             validated_version := false
             expiring_bool := { max_age_seconds := 10, entries := [] }
             should_delay_torrent_scan := false
             child_processes := [] }) := by
  rfl

/-- If the version gate returned, the checked version was inside the
supported range. Shared helper. -/
theorem version_validator_ok_in_range (cur : PVersion) (validated : Bool)
    (h : ∃ u, (qBitManager.version_validator cur validated).2 = .ok u) :
    relLE qBitManager.min_supported_version cur = true ∧
    relLE cur qBitManager.max_supported_version = true := by
  by_cases hc : (relLE qBitManager.min_supported_version cur &&
      relLE cur qBitManager.max_supported_version) = true
  · exact Bool.and_eq_true _ _ |>.mp hc
  · rcases h with ⟨u, h⟩
    rw [Bool.not_eq_true] at hc
    simp [qBitManager.version_validator, hc] at h

/-- Any manager returned by the constructor carries a version inside the
supported range: the gate exited otherwise, and the fallback value is the
minimum itself. Shared helper for the construction invariant. -/
theorem init_ok_version_in_range (fetch : Except Exn PVersion) (ffprobe : Except Exn Unit)
    (tr : List Event) (m : qBitManager)
    (h : qBitManager.init fetch ffprobe = (tr, .ok m)) :
    relLE qBitManager.min_supported_version m.current_qbit_version = true ∧
    relLE m.current_qbit_version qBitManager.max_supported_version = true := by
  cases fetch with
  | ok v =>
      simp only [qBitManager.init] at h
      split at h
      · simp at h
      · rename_i u heq
        have hm : m.current_qbit_version = v := by
          cases ffprobe with
          | ok _ =>
              simp only [Prod.mk.injEq, Except.ok.injEq] at h
              rw [← h.2]
          | error e2 =>
              cases he2 : e2.isException <;> simp [he2] at h <;> rw [← h.2]
        rw [hm]
        exact version_validator_ok_in_range v true ⟨u, heq⟩
  | error e =>
      simp only [qBitManager.init] at h
      split at h
      · simp at h
      · rename_i u heq
        have hm : m.current_qbit_version = qBitManager.min_supported_version := by
          cases ffprobe with
          | ok _ =>
              simp only [Prod.mk.injEq, Except.ok.injEq] at h
              rw [← h.2]
          | error e2 =>
              cases he2 : e2.isException <;> simp [he2] at h <;> rw [← h.2]
        rw [hm]
        exact version_validator_ok_in_range qBitManager.min_supported_version false ⟨u, heq⟩

/-- C10: whenever construction completes (the constructor returns a manager
without the process exiting), the stored observed version lies between the
minimum and maximum supported versions inclusive, on both the validated
path and the fetch-failure fallback path. -/
theorem c10_constructed_version_in_range (fetch : Except Exn PVersion)
    (ffprobe : Except Exn Unit) (tr : List Event) (m : qBitManager)
    (h : qBitManager.init fetch ffprobe = (tr, .ok m)) :
    relLE qBitManager.min_supported_version m.current_qbit_version = true ∧
    relLE m.current_qbit_version qBitManager.max_supported_version = true :=
  init_ok_version_in_range fetch ffprobe tr m h

/-- C10 witness: a successful fetch of version 4.3.5 constructs a manager,
and the stored version is inside the supported range. -/
theorem c10_constructed_version_in_range_witness :
    qBitManager.init (.ok [4, 3, 5]) (.ok ()) =
      ([Event.log .debug "QBitTorrent Config" [],
        Event.log .hnotice "Current qBitTorrent version is supported" [[4, 3, 5]]],
       .ok { current_qbit_version := [4, 3, 5]
             validated_version := true
             expiring_bool := { max_age_seconds := 10, entries := [] }
             should_delay_torrent_scan := false
             child_processes := [] }) ∧
    (relLE qBitManager.min_supported_version [4, 3, 5] = true ∧
     relLE [4, 3, 5] qBitManager.max_supported_version = true) :=
  ⟨by rfl,
   c10_constructed_version_in_range (.ok [4, 3, 5]) (.ok ())
     [Event.log .debug "QBitTorrent Config" [],
      Event.log .hnotice "Current qBitTorrent version is supported" [[4, 3, 5]]]
     { current_qbit_version := [4, 3, 5]
       validated_version := true
       expiring_bool := { max_age_seconds := 10, entries := [] }
       should_delay_torrent_scan := false
       child_processes := [] }
     (by rfl)⟩

/-- C1: for every list of handles produced by get_child_processes, run()
starts every one of them in production order and then joins every one of
them in start order, and completes normally with no produced handle left
unstarted. -/
theorem c1_run_starts_then_joins_all (m : qBitManager) (categories : List (List Nat))
    (h : m.child_processes = []) :
    qBitManager.run (m.get_child_processes categories).2.1 none =
      (Event.log .notice "Starting child processes" [] ::
        ((m.get_child_processes categories).2.2.map Event.start ++
         (m.get_child_processes categories).2.2.map Event.join), .ok ()) ∧
    ∀ p ∈ (m.get_child_processes categories).2.2,
      Event.start p ∈ (qBitManager.run (m.get_child_processes categories).2.1 none).1 := by
  have hreg : (m.get_child_processes categories).2.1.child_processes =
      (m.get_child_processes categories).2.2 := by
    simp [qBitManager.get_child_processes, h]
  have heq : qBitManager.run (m.get_child_processes categories).2.1 none =
      (Event.log .notice "Starting child processes" [] ::
        ((m.get_child_processes categories).2.2.map Event.start ++
         (m.get_child_processes categories).2.2.map Event.join), .ok ()) := by
    simp [qBitManager.run, hreg]
  refine ⟨heq, fun p hp => ?_⟩
  rw [heq]
  exact List.mem_cons_of_mem _
    (List.mem_append_left _ (List.mem_map_of_mem Event.start hp))

/-- C1 witness: two categories producing handles 1, 2 and 3; run starts
1, 2, 3 and then joins 1, 2, 3. -/
theorem c1_run_starts_then_joins_all_witness :
    probe0.child_processes = [] ∧
    (qBitManager.run (probe0.get_child_processes [[1, 2], [3]]).2.1 none =
      (Event.log .notice "Starting child processes" [] ::
        ((probe0.get_child_processes [[1, 2], [3]]).2.2.map Event.start ++
         (probe0.get_child_processes [[1, 2], [3]]).2.2.map Event.join), .ok ()) ∧
     ∀ p ∈ (probe0.get_child_processes [[1, 2], [3]]).2.2,
       Event.start p ∈ (qBitManager.run (probe0.get_child_processes [[1, 2], [3]]).2.1 none).1) :=
  ⟨by decide, c1_run_starts_then_joins_all probe0 [[1, 2], [3]] (by decide)⟩

/-- The shutdown hook, on any registry, emits kill then terminate for every
handle in order, raises nothing, and leaves every handle stopped. Shared
helper. -/
theorem cleanup_spec (reg : List (Nat × HState)) :
    cleanup reg =
      (reg.flatMap fun h => [Event.kill h.1, Event.terminate h.1],
       .ok (reg.map fun h => (h.1, HState.stopped))) := by
  induction reg with
  | nil => rfl
  | cons p rest ih => simp [cleanup, HState.kill, HState.terminate, ih, Except.map]

/-- C7: for every registry state (empty included, already-stopped handles
included), the cleanup hook issues kill followed by terminate on every
registered handle, completes without raising, and invoking it again on the
resulting registry is again safe. -/
theorem c7_cleanup_kill_then_terminate (reg : List (Nat × HState)) :
    cleanup reg =
      (reg.flatMap fun h => [Event.kill h.1, Event.terminate h.1],
       .ok (reg.map fun h => (h.1, HState.stopped))) ∧
    cleanup (reg.map fun h => (h.1, HState.stopped)) =
      (reg.flatMap fun h => [Event.kill h.1, Event.terminate h.1],
       .ok (reg.map fun h => (h.1, HState.stopped))) := by
  refine ⟨cleanup_spec reg, ?_⟩
  rw [cleanup_spec]
  simp [List.flatMap_map, List.map_map, Function.comp]

def mgrRun : qBitManager :=
  { probe0 with child_processes := [1, 2] }

/-- C8: when an interrupt is delivered during run()'s start/join phase the
process logs and exits with status 0; when any other failure is raised
there the process logs and exits with status 1. -/
theorem c8_interrupt_exit0_failure_exit1 (m : qBitManager) (k : Nat) (e : Exn)
    (hk : k < 2 * m.child_processes.length) :
    qBitManager.run m (some (k, .keyboardInterrupt)) =
      (Event.log .notice "Starting child processes" [] ::
        ((m.child_processes.map Event.start ++ m.child_processes.map Event.join).take k ++
          [Event.log .hnotice "Detected Ctrl+C - Terminating process" []]),
       .error (.systemExit 0)) ∧
    (e ≠ .keyboardInterrupt →
      qBitManager.run m (some (k, e)) =
        (Event.log .notice "Starting child processes" [] ::
          ((m.child_processes.map Event.start ++ m.child_processes.map Event.join).take k ++
            [Event.log .hnotice "Terminating process" []]),
         .error (.systemExit 1))) := by
  have hlen : k < (m.child_processes.map Event.start ++
      m.child_processes.map Event.join).length := by
    simp only [List.length_append, List.length_map]
    omega
  refine ⟨?_, fun he => ?_⟩
  · simp [qBitManager.run, hlen]
    omega
  · simp [qBitManager.run, hlen, he]
    omega

/-- C8 witness: a manager with two registered handles; injecting an
interrupt at the second operation exits 0, injecting another exception
there exits 1. -/
theorem c8_interrupt_exit0_failure_exit1_witness :
    1 < 2 * mgrRun.child_processes.length ∧
    (qBitManager.run mgrRun (some (1, .keyboardInterrupt)) =
      (Event.log .notice "Starting child processes" [] ::
        ((mgrRun.child_processes.map Event.start ++ mgrRun.child_processes.map Event.join).take 1 ++
          [Event.log .hnotice "Detected Ctrl+C - Terminating process" []]),
       .error (.systemExit 0)) ∧
     (Exn.otherException ≠ Exn.keyboardInterrupt →
      qBitManager.run mgrRun (some (1, .otherException)) =
        (Event.log .notice "Starting child processes" [] ::
          ((mgrRun.child_processes.map Event.start ++ mgrRun.child_processes.map Event.join).take 1 ++
            [Event.log .hnotice "Terminating process" []]),
         .error (.systemExit 1)))) :=
  ⟨by decide, c8_interrupt_exit0_failure_exit1 mgrRun 1 .otherException (by decide)⟩

/-- The constructor always returns a manager whose child-process list is
still empty: handles are only registered later. Shared helper. -/
theorem init_ok_child_processes_nil (fetch : Except Exn PVersion) (ffprobe : Except Exn Unit)
    (tr : List Event) (m : qBitManager)
    (h : qBitManager.init fetch ffprobe = (tr, .ok m)) :
    m.child_processes = [] := by
  cases fetch with
  | ok v =>
      simp only [qBitManager.init] at h
      split at h
      · simp at h
      · cases ffprobe with
        | ok _ =>
            simp only [Prod.mk.injEq, Except.ok.injEq] at h
            rw [← h.2]
        | error e2 =>
            cases he2 : e2.isException <;> simp [he2] at h <;> rw [← h.2]
  | error e =>
      simp only [qBitManager.init] at h
      split at h
      · simp at h
      · cases ffprobe with
        | ok _ =>
            simp only [Prod.mk.injEq, Except.ok.injEq] at h
            rw [← h.2]
        | error e2 =>
            cases he2 : e2.isException <;> simp [he2] at h <;> rw [← h.2]

/-- When construction succeeded and a non-interrupt failure hits the
start/join phase, the module entry point propagates SystemExit 1 and the
CHILD_PROCESSES registry holds every produced handle. Shared helper. -/
theorem run_failure_outcome (fetch : Except Exn PVersion) (ffprobe : Except Exn Unit)
    (categories : List (List Nat)) (k : Nat) (e : Exn) (tr0 : List Event) (m : qBitManager)
    (hinit : qBitManager.init fetch ffprobe = (tr0, .ok m))
    (hk : k < 2 * (categories.flatMap fun c => (spawn_child_processes c).2).length)
    (he : e ≠ .keyboardInterrupt) :
    (run fetch ffprobe categories (some (k, e))).2 =
      (.error (.systemExit 1), categories.flatMap fun c => (spawn_child_processes c).2) := by
  have hnil := init_ok_child_processes_nil fetch ffprobe tr0 m hinit
  have hreg : (m.get_child_processes categories).2.1.child_processes =
      categories.flatMap fun c => (spawn_child_processes c).2 := by
    simp [qBitManager.get_child_processes, hnil]
  have hlen : k < ((m.get_child_processes categories).2.1.child_processes.map Event.start ++
      (m.get_child_processes categories).2.1.child_processes.map Event.join).length := by
    rw [hreg]
    simp only [List.length_append, List.length_map]
    omega
  have hrun : (qBitManager.run (m.get_child_processes categories).2.1 (some (k, e))).2 =
      .error (.systemExit 1) := by
    simp only [qBitManager.run]
    rw [if_pos hlen, if_neg he]
  simp only [run]
  rw [hinit]
  simp only []
  rw [hrun]
  simp [Exn.isException, qBitManager.get_child_processes]

/-- C9: for every non-interrupt failure escaping the start/join phase (the
SystemExit it produces is not caught by the module entry point), every
produced worker handle receives a forced kill in the final process trace —
the shutdown hook runs before exit — and the process exits with status 1,
so no spawned worker outlives the supervisor. -/
theorem c9_no_orphaned_workers (fetch : Except Exn PVersion) (ffprobe : Except Exn Unit)
    (categories : List (List Nat)) (k : Nat) (e : Exn) (tr0 : List Event) (m : qBitManager)
    (hinit : qBitManager.init fetch ffprobe = (tr0, .ok m))
    (hk : k < 2 * (categories.flatMap fun c => (spawn_child_processes c).2).length)
    (he : e ≠ .keyboardInterrupt) :
    (mainProgram fetch ffprobe categories (some (k, e))).2 = 1 ∧
    ∀ p ∈ categories.flatMap fun c => (spawn_child_processes c).2,
      Event.kill p ∈ (mainProgram fetch ffprobe categories (some (k, e))).1 := by
  have hout := run_failure_outcome fetch ffprobe categories k e tr0 m hinit hk he
  have h21 : (run fetch ffprobe categories (some (k, e))).2.1 = .error (.systemExit 1) :=
    congrArg Prod.fst hout
  have h22 : (run fetch ffprobe categories (some (k, e))).2.2 =
      categories.flatMap fun c => (spawn_child_processes c).2 :=
    congrArg Prod.snd hout
  constructor
  · simp only [mainProgram]
    rw [h21]
    rfl
  · intro p hp
    simp only [mainProgram]
    apply List.mem_append_right
    rw [h22, cleanup_spec]
    exact List.mem_flatMap.mpr
      ⟨(p, HState.running), List.mem_map_of_mem _ hp, by simp⟩

/-- C9 witness: construction succeeds on version 4.3.5, categories produce
handles 1, 2, 3, and a non-interrupt failure at the second operation of the
start/join phase leaves exit status 1 with kill issued on all of 1, 2, 3. -/
theorem c9_no_orphaned_workers_witness :
    (qBitManager.init (.ok [4, 3, 5]) (.ok ()) =
      ([Event.log .debug "QBitTorrent Config" [],
        Event.log .hnotice "Current qBitTorrent version is supported" [[4, 3, 5]]],
       .ok { current_qbit_version := [4, 3, 5]
             validated_version := true
             expiring_bool := { max_age_seconds := 10, entries := [] }
             should_delay_torrent_scan := false
             child_processes := [] }) ∧
     1 < 2 * (([[1, 2], [3]] : List (List Nat)).flatMap fun c => (spawn_child_processes c).2).length ∧
     Exn.otherException ≠ Exn.keyboardInterrupt) ∧
    ((mainProgram (.ok [4, 3, 5]) (.ok ()) [[1, 2], [3]] (some (1, .otherException))).2 = 1 ∧
     ∀ p ∈ ([[1, 2], [3]] : List (List Nat)).flatMap fun c => (spawn_child_processes c).2,
       Event.kill p ∈ (mainProgram (.ok [4, 3, 5]) (.ok ()) [[1, 2], [3]]
         (some (1, .otherException))).1) :=
  ⟨⟨by rfl, by decide, by decide⟩,
   c9_no_orphaned_workers (.ok [4, 3, 5]) (.ok ()) [[1, 2], [3]] 1 .otherException
     [Event.log .debug "QBitTorrent Config" [],
      Event.log .hnotice "Current qBitTorrent version is supported" [[4, 3, 5]]]
     { current_qbit_version := [4, 3, 5]
       validated_version := true
       expiring_bool := { max_age_seconds := 10, entries := [] }
       should_delay_torrent_scan := false
       child_processes := [] }
     (by rfl) (by decide) (by decide)⟩

end Qbitrr
